import Mathlib

/-!
Verification development for the pulse-desktop capture engine.

The definitions below are a shallow embedding of the recording core:

* `crates/screen-capture/src/macos/SCRecorder.m` — the ScreenCaptureKit /
  AVAssetWriter recorder (timestamp normalization, encoder configuration,
  start/stop/duration, audio capture setup, and the C API).
* `src/hooks/useUndoRedo.ts` — the history stack used for timeline edits.
* `src/hooks/useRecording.ts` — the UI recording-state event handlers.

Media times (`CMTime`) are modelled as an exact value/timescale pair;
wall-clock instants (`NSTimeInterval`) are modelled as integers; machine
`uint32_t` arithmetic is modelled with explicit reduction modulo `2 ^ 32`.
Effects of the OS frameworks (writer failures, sample-copy failures,
ready-for-data flags, device enumeration) are supplied as explicit
environment records, so every function is a pure, executable Lean function.
-/

/-- CoreMedia `CMTime`: a rational time as numerator `value` over
`timescale`.  `kCMTimeInvalid` is modelled by `Option CMTime = none`. -/
structure CMTime where
  value : Int
  timescale : Nat
deriving DecidableEq, Repr

/-- `CMTimeMake(value, timescale)`. -/
def CMTimeMake (value : Int) (timescale : Nat) : CMTime :=
  { value := value, timescale := timescale }

/-- `kCMTimeZero`. -/
def kCMTimeZero : CMTime := CMTimeMake 0 1

/-- `CMTimeSubtract`: exact rational subtraction.  When the two operands
share a timescale the result keeps it; otherwise the times are brought to
the common timescale first. -/
def CMTimeSubtract (a b : CMTime) : CMTime :=
  if a.timescale = b.timescale then
    { value := a.value - b.value, timescale := a.timescale }
  else
    { value := a.value * (b.timescale : Int) - b.value * (a.timescale : Int),
      timescale := a.timescale * b.timescale }

/-- `CMSampleTimingInfo` as filled in by the recorder before
`CMSampleBufferCreateCopyWithNewTiming`.  `decodeTimeStamp = none` models
`kCMTimeInvalid`. -/
structure CMSampleTimingInfo where
  presentationTimeStamp : CMTime
  decodeTimeStamp : Option CMTime
  duration : CMTime
deriving DecidableEq, Repr

/-- The observable content of an incoming `CMSampleBufferRef`: its
presentation timestamp (`CMSampleBufferGetPresentationTimeStamp`) and its
duration (`CMSampleBufferGetDuration`). -/
structure SampleBuffer where
  presentationTimeStamp : CMTime
  duration : CMTime
deriving DecidableEq, Repr

/-- `SCStreamOutputType` (only the screen case is handled by the code). -/
inductive SCStreamOutputType where
  | screen
  | audio
deriving DecidableEq, Repr

/-- Environment of one delegate-callback invocation: whether the writer
input reported `readyForMoreMediaData`, and whether
`CMSampleBufferCreateCopyWithNewTiming` returned `noErr` with a non-null
buffer. -/
structure AppendEnv where
  readyForMoreMediaData : Bool
  copySucceeds : Bool
deriving DecidableEq, Repr

/-- An `AVCaptureDevice` as far as audio-device selection is concerned. -/
structure AVCaptureDevice where
  uniqueID : String
  localizedName : String
  isBuiltInMicrophone : Bool
deriving DecidableEq, Repr

/-- Environment for `setupAudioCapture`: the device returned by
`AVCaptureDevice defaultDeviceWithMediaType:AVMediaTypeAudio`, the full
device list (used only by the specification-side selection rule), and the
fallible AVFoundation steps. -/
structure AudioEnv where
  defaultDevice : Option AVCaptureDevice
  devices : List AVCaptureDevice
  deviceInputError : Bool
  canAddInput : Bool
  canAddOutput : Bool
deriving DecidableEq, Repr

/-- Mutable state of `SCRecorderImpl` (the properties read or written by
the methods under verification).  `stream` and `audioInput` record the
presence of the corresponding objects (`_stream`, `_audioInput`). -/
structure SCRecorderImpl where
  outputPath : String
  width : Nat
  height : Nat
  fps : Nat
  captureAudio : Bool
  isRecording : Bool
  hasFirstFrame : Bool
  hasFirstAudio : Bool
  firstFrameTime : CMTime
  firstAudioTime : CMTime
  startTime : Int
  lastError : Option String
  stream : Bool
  audioInput : Bool
  audioDevice : Option AVCaptureDevice
deriving DecidableEq, Repr

/-- `2 ^ 32`, the modulus of `uint32_t` arithmetic. -/
def UINT32_MOD : Nat := 4294967296

/-- The `AVVideoCompressionPropertiesKey` dictionary built in
`initWithConfig`. -/
structure VideoCompressionProperties where
  averageBitRate : Nat
  profileLevel : String
  maxKeyFrameInterval : Nat
deriving DecidableEq, Repr

/-- The `videoSettings` dictionary built in `initWithConfig`. -/
structure VideoOutputSettings where
  codec : String
  width : Nat
  height : Nat
  compression : VideoCompressionProperties
deriving DecidableEq, Repr

/-- `videoSettings` from `initWithConfig`: H.264, the configured frame
size, and compression properties computed in C `uint32_t` arithmetic:
`w * h * 3 * f / 4` for the average bitrate and `f * 2` for the maximum
keyframe interval. -/
def videoSettings (w h f : Nat) : VideoOutputSettings :=
  { codec := "AVVideoCodecTypeH264"
    width := w
    height := h
    compression :=
      { averageBitRate := w * h % UINT32_MOD * 3 % UINT32_MOD * f % UINT32_MOD / 4
        profileLevel := "AVVideoProfileLevelH264HighAutoLevel"
        maxKeyFrameInterval := f * 2 % UINT32_MOD } }

/-- The `audioSettings` dictionary built in `initWithConfig` when audio
capture is requested. -/
structure AudioOutputSettings where
  formatID : String
  sampleRate : Nat
  numberOfChannels : Nat
  encoderBitRate : Nat
deriving DecidableEq, Repr

/-- The audio settings literal from `initWithConfig`: AAC, 48 kHz, mono,
128 kbit/s. -/
def audioOutputSettings : AudioOutputSettings :=
  { formatID := "kAudioFormatMPEG4AAC"
    sampleRate := 48000
    numberOfChannels := 1
    encoderBitRate := 128000 }

/-- `setupAudioCapture`: queries only the OS default input device; every
failure path logs a warning and returns, leaving the session without an
audio source.  Result: the device the capture session ends up using (if
any) together with the warnings logged. -/
def setupAudioCapture (env : AudioEnv) : Option AVCaptureDevice × List String :=
  match env.defaultDevice with
  | none => (none, ["No microphone found, continuing without audio"])
  | some audioDevice =>
      if env.deviceInputError then
        (none, ["Failed to create audio input"])
      else if !env.canAddInput then
        (none, ["Cannot add audio input to session"])
      else if !env.canAddOutput then
        (none, ["Cannot add audio output to session"])
      else
        (some audioDevice, [])

/-- Modelled from the spec: the microphone device selection rule of
section 4.3 (caller-supplied identifier first, then a built-in-microphone
predicate, then the OS default input device).  No code under `src`
implements this rule; `SCRecorder.h` declares an `audio_device_id`
parameter for `sc_recorder_create`, but the implementation in
`SCRecorder.m` neither accepts nor consults it. -/
def specMicrophoneSelection (suppliedId : Option String) (env : AudioEnv) :
    Option AVCaptureDevice :=
  match suppliedId with
  | some i => env.devices.find? (fun d => d.uniqueID = i)
  | none =>
      match env.devices.find? (fun d => d.isBuiltInMicrophone) with
      | some d => some d
      | none => env.defaultDevice

/-- Environment for `initWithConfig`: the fallible steps of recorder
construction in source order. -/
structure InitEnv where
  assetWriterError : Bool
  canAddVideoInput : Bool
  canAddAudioInput : Bool
  shareableContentError : Bool
  hasDisplay : Bool
  addStreamOutputError : Bool
deriving DecidableEq, Repr

/-- A successfully constructed recorder: the `SCRecorderImpl` state plus
the writer-input settings it was configured with. -/
structure RecorderInit where
  impl : SCRecorderImpl
  video : VideoOutputSettings
  audio : Option AudioOutputSettings
deriving DecidableEq, Repr

/-- `initWithConfig:width:height:fps:quality:displayID:captureAudio:`.
Follows the source order: create the asset writer, add the video input,
add the audio input iff `captureAudio`, pre-initialize ScreenCaptureKit
(shareable content, display, stream output), then pre-initialize audio
capture iff `captureAudio`.  Any failure before audio setup makes `init`
return `nil` (`none`); `setupAudioCapture` failures never do.  The
`quality` parameter is accepted and ignored, as in the source. -/
def initWithConfig (path : String) (w h f q displayID : Nat) (captureAudio : Bool)
    (env : InitEnv) (aenv : AudioEnv) : Option RecorderInit :=
  if env.assetWriterError then none
  else if !env.canAddVideoInput then none
  else if captureAudio ∧ !env.canAddAudioInput then none
  else if env.shareableContentError then none
  else if !env.hasDisplay then none
  else if env.addStreamOutputError then none
  else
    some
      { impl :=
          { outputPath := path
            width := w
            height := h
            fps := f
            captureAudio := captureAudio
            isRecording := false
            hasFirstFrame := false
            hasFirstAudio := false
            firstFrameTime := kCMTimeZero
            firstAudioTime := kCMTimeZero
            startTime := 0
            lastError := none
            stream := true
            audioInput := captureAudio
            audioDevice := if captureAudio then (setupAudioCapture aenv).1 else none }
        video := videoSettings w h f
        audio := if captureAudio then some audioOutputSettings else none }

/-- Observable actions performed by `start`, in program order. -/
inductive StartAction where
  | startWriting
  | startSessionAtSourceTimeZero
  | resetFirstSampleFlags
  | invokeStreamStart
  | setIsRecordingTrue
  | recordStartTime
deriving DecidableEq, Repr

/-- Environment for `start`: whether `startWriting` succeeds and whether
`startCaptureWithCompletionHandler` reports an error. -/
structure StartEnv where
  startWritingSucceeds : Bool
  streamStartError : Bool
deriving DecidableEq, Repr

namespace SCRecorderImpl

/-- The `start` method.  Returns the new state, the `int32_t` result, and
the ordered trace of observable actions.  `isRecording` is assigned inside
the `startCaptureWithCompletionHandler` completion block, hence after
`stream.start` has been invoked, and only when it reported no error. -/
def start (s : SCRecorderImpl) (env : StartEnv) (now : Int) :
    SCRecorderImpl × Int × List StartAction :=
  if s.isRecording then
    ({ s with lastError := some "Already recording" }, -1, [])
  else if !s.stream then
    ({ s with lastError := some "Stream not initialized - call init first" }, -1, [])
  else if !env.startWritingSucceeds then
    ({ s with lastError := some "Failed to start writing" }, -1,
      [StartAction.startWriting])
  else
    let s1 := { s with
      hasFirstFrame := false
      firstFrameTime := kCMTimeZero
      hasFirstAudio := false
      firstAudioTime := kCMTimeZero }
    if env.streamStartError then
      ({ s1 with lastError := some "Failed to start capture" }, -1,
        [StartAction.startWriting, StartAction.startSessionAtSourceTimeZero,
         StartAction.resetFirstSampleFlags, StartAction.invokeStreamStart])
    else
      ({ s1 with isRecording := true, startTime := now }, 0,
        [StartAction.startWriting, StartAction.startSessionAtSourceTimeZero,
         StartAction.resetFirstSampleFlags, StartAction.invokeStreamStart,
         StartAction.setIsRecordingTrue, StartAction.recordStartTime])

/-- Environment for `stop`: whether `stopCaptureWithCompletionHandler`
reports an error and whether the asset writer ends in the failed status. -/
structure StopEnv where
  stopCaptureError : Bool
  writerFailed : Bool
deriving DecidableEq, Repr

/-- The `stop` method.  When not recording it fails without touching the
flag; otherwise it clears `isRecording` unconditionally in the
finish-writing completion and reports `-1` if either the capture stop or
the writer failed. -/
def stop (s : SCRecorderImpl) (env : StopEnv) : SCRecorderImpl × Int :=
  if !s.isRecording then
    ({ s with lastError := some "Not recording" }, -1)
  else
    let s1 :=
      if env.stopCaptureError then { s with lastError := some "Failed to stop capture" } else s
    let s2 :=
      if env.writerFailed then { s1 with lastError := some "Asset writer failed" } else s1
    ({ s2 with isRecording := false },
      if env.stopCaptureError || env.writerFailed then -1 else 0)

/-- The `duration` method: wall-clock elapsed since `startTime` while
recording, `0` otherwise. -/
def duration (s : SCRecorderImpl) (now : Int) : Int :=
  if s.isRecording then now - s.startTime else 0

/-- The audio delegate callback
`captureOutput:didOutputSampleBuffer:fromConnection:`.  Returns the new
state and the timing of the sample appended to the audio writer input, if
any.  Samples are dropped while `isRecording` is false or no audio input
exists; the first accepted sample records `firstAudioTime`; every accepted
sample is rebased against `firstAudioTime` with its source duration
preserved and an invalid decode timestamp. -/
def captureOutput (s : SCRecorderImpl) (sampleBuffer : SampleBuffer) (env : AppendEnv) :
    SCRecorderImpl × Option CMSampleTimingInfo :=
  if !s.isRecording || !s.audioInput then (s, none)
  else if env.readyForMoreMediaData then
    let originalTime := sampleBuffer.presentationTimeStamp
    let s1 :=
      if !s.hasFirstAudio then
        { s with firstAudioTime := originalTime, hasFirstAudio := true }
      else s
    let adjustedTime := CMTimeSubtract originalTime s1.firstAudioTime
    let timingInfo : CMSampleTimingInfo :=
      { presentationTimeStamp := adjustedTime
        decodeTimeStamp := none
        duration := sampleBuffer.duration }
    if env.copySucceeds then (s1, some timingInfo) else (s1, none)
  else (s, none)

/-- The video delegate callback
`stream:didOutputSampleBuffer:ofType:`.  Only screen samples while
recording are considered; the first one records `firstFrameTime`; every
accepted sample is rebased against `firstFrameTime`, its duration is set
to `CMTimeMake(1, fps)` (the source duration is never read), and the
decode timestamp is left invalid. -/
def streamDidOutputSampleBuffer (s : SCRecorderImpl) (sampleBuffer : SampleBuffer)
    (type : SCStreamOutputType) (env : AppendEnv) :
    SCRecorderImpl × Option CMSampleTimingInfo :=
  if type = SCStreamOutputType.screen ∧ s.isRecording then
    if env.readyForMoreMediaData then
      let originalTime := sampleBuffer.presentationTimeStamp
      let s1 :=
        if !s.hasFirstFrame then
          { s with firstFrameTime := originalTime, hasFirstFrame := true }
        else s
      let adjustedTime := CMTimeSubtract originalTime s1.firstFrameTime
      let timingInfo : CMSampleTimingInfo :=
        { presentationTimeStamp := adjustedTime
          decodeTimeStamp := none
          duration := CMTimeMake 1 s.fps }
      if env.copySucceeds then (s1, some timingInfo) else (s1, none)
    else (s, none)
  else (s, none)

end SCRecorderImpl

/-- One sample-delivery event of a recording session: a video (screen)
sample or an audio sample, each with its callback environment. -/
inductive CaptureEvent where
  | video (sampleBuffer : SampleBuffer) (env : AppendEnv)
  | audio (sampleBuffer : SampleBuffer) (env : AppendEnv)
deriving DecidableEq, Repr

/-- A sample appended to one of the writer inputs. -/
inductive EmittedSample where
  | video (timingInfo : CMSampleTimingInfo)
  | audio (timingInfo : CMSampleTimingInfo)
deriving DecidableEq, Repr

/-- Dispatch one event to the corresponding delegate callback. -/
def processEvent (s : SCRecorderImpl) (e : CaptureEvent) :
    SCRecorderImpl × Option EmittedSample :=
  match e with
  | CaptureEvent.video sb env =>
      let r := s.streamDidOutputSampleBuffer sb SCStreamOutputType.screen env
      (r.1, r.2.map EmittedSample.video)
  | CaptureEvent.audio sb env =>
      let r := s.captureOutput sb env
      (r.1, r.2.map EmittedSample.audio)

/-- Process a list of sample-delivery events in order, collecting the
samples appended to the writer. -/
def processTrace (s : SCRecorderImpl) : List CaptureEvent → SCRecorderImpl × List EmittedSample
  | [] => (s, [])
  | e :: rest =>
      let r := processEvent s e
      let rr := processTrace r.1 rest
      (rr.1, match r.2 with
             | none => rr.2
             | some out => out :: rr.2)

/-- `sc_recorder_create`: wraps `initWithConfig`; returns `NULL` (`none`)
exactly when `init` returned `nil`. -/
def sc_recorder_create (path : String) (w h f q displayID : Nat) (captureAudio : Bool)
    (env : InitEnv) (aenv : AudioEnv) : Option RecorderInit :=
  initWithConfig path w h f q displayID captureAudio env aenv

/-- `sc_recorder_start`: `-1` on a `NULL` handle, otherwise the result of
the `start` method on the wrapped implementation. -/
def sc_recorder_start (recorder : Option RecorderInit) (env : StartEnv) (now : Int) :
    Int × Option RecorderInit :=
  match recorder with
  | none => (-1, none)
  | some r =>
      let res := r.impl.start env now
      (res.2.1, some { r with impl := res.1 })

/-- `sc_recorder_stop`: `-1` on a `NULL` handle, otherwise the result of
the `stop` method on the wrapped implementation. -/
def sc_recorder_stop (recorder : Option RecorderInit) (env : SCRecorderImpl.StopEnv) :
    Int × Option RecorderInit :=
  match recorder with
  | none => (-1, none)
  | some r =>
      let res := r.impl.stop env
      (res.2, some { r with impl := res.1 })

/-- `sc_recorder_duration`: `0.0` on a `NULL` handle, otherwise the
`duration` method. -/
def sc_recorder_duration (recorder : Option RecorderInit) (now : Int) : Int :=
  match recorder with
  | none => 0
  | some r => r.impl.duration now

/-- `sc_recorder_last_error`: `NULL` on a `NULL` handle, otherwise the
stored `lastError`. -/
def sc_recorder_last_error (recorder : Option RecorderInit) : Option String :=
  match recorder with
  | none => none
  | some r => r.impl.lastError

/-- `sc_recorder_free`: a no-op on a `NULL` handle; otherwise releases the
implementation, leaving the handle invalid. -/
def sc_recorder_free (recorder : Option RecorderInit) : Option RecorderInit :=
  match recorder with
  | none => none
  | some _ => none

namespace UndoRedo

/-- The history record of `useUndoRedo`. -/
structure HistoryState (T : Type) where
  past : List T
  present : T
  future : List T
deriving DecidableEq, Repr

/-- `setState` from `useUndoRedo.ts`.  With `checkpoint = false` only the
present value changes; otherwise the previous present is pushed onto the
past stack (shifting the oldest entry out when the cap is exceeded) and
the future stack is cleared. -/
def setState {T : Type} (maxHistorySize : Nat) (checkpoint : Bool) (newState : T)
    (h : HistoryState T) : HistoryState T :=
  if !checkpoint then
    { h with present := newState }
  else
    let newPast := h.past ++ [h.present]
    let newPast := if newPast.length > maxHistorySize then newPast.tail else newPast
    { past := newPast, present := newState, future := [] }

/-- `undo` from `useUndoRedo.ts`: no-op on an empty past stack; otherwise
the last past entry becomes present and the old present is pushed onto the
front of the future stack. -/
def undo {T : Type} (h : HistoryState T) : HistoryState T :=
  match h.past.getLast? with
  | none => h
  | some p =>
      { past := h.past.dropLast, present := p, future := h.present :: h.future }

/-- `redo` from `useUndoRedo.ts`: no-op on an empty future stack;
otherwise the first future entry becomes present and the old present is
appended to the past stack. -/
def redo {T : Type} (h : HistoryState T) : HistoryState T :=
  match h.future with
  | [] => h
  | f :: rest =>
      { past := h.past ++ [h.present], present := f, future := rest }

end UndoRedo

namespace UseRecording

/-- The `RecordingState` managed by `useRecording`. -/
structure RecordingState where
  status : String
  clipCount : Nat
  currentClipPath : Option String
  error : Option String
deriving DecidableEq, Repr

/-- Payload of the `clip-saved` event. -/
structure ClipSavedEvent where
  path : String
  durationMs : Nat
deriving DecidableEq, Repr

/-- Payload of the `recording-error` event. -/
structure RecordingErrorEvent where
  code : String
  message : String
deriving DecidableEq, Repr

/-- The `recording-status` listener: replaces `status` with the payload. -/
def onRecordingStatus (payload : String) (prev : RecordingState) : RecordingState :=
  { prev with status := payload }

/-- The `clip-saved` listener: updates only `currentClipPath`; the status
field is deliberately left unchanged. -/
def onClipSaved (payload : ClipSavedEvent) (prev : RecordingState) : RecordingState :=
  { prev with currentClipPath := some payload.path }

/-- The `recording-error` listener: sets the status to `error` and stores
the message. -/
def onRecordingError (payload : RecordingErrorEvent) (prev : RecordingState) : RecordingState :=
  { prev with status := "error", error := some payload.message }

end UseRecording

/-- A recorder state as it stands right after a successful `start`, used
as the concrete session state of witnesses and counterexamples. -/
def recAfterStart : SCRecorderImpl :=
  { outputPath := "/tmp/recording-1.mp4"
    width := 1920
    height := 1080
    fps := 30
    captureAudio := true
    isRecording := true
    hasFirstFrame := false
    hasFirstAudio := false
    firstFrameTime := kCMTimeZero
    firstAudioTime := kCMTimeZero
    startTime := 100
    lastError := none
    stream := true
    audioInput := true
    audioDevice := none }

/-- A callback environment in which the writer input is ready and the
sample copy succeeds. -/
def okEnv : AppendEnv := { readyForMoreMediaData := true, copySucceeds := true }

/-- A callback environment in which the writer input is ready but
`CMSampleBufferCreateCopyWithNewTiming` fails. -/
def copyFailEnv : AppendEnv := { readyForMoreMediaData := true, copySucceeds := false }

/-- The same recorder before `start`: not yet recording. -/
def recPreStart : SCRecorderImpl := { recAfterStart with isRecording := false }

/-- A `start` environment in which the writer starts and the stream
capture completes without error. -/
def okStartEnv : StartEnv := { startWritingSucceeds := true, streamStartError := false }

/-- A concrete video sample: native timestamp 130/600 s, duration
20/600 s. -/
def vbuf : SampleBuffer :=
  { presentationTimeStamp := CMTimeMake 130 600, duration := CMTimeMake 20 600 }

/-- A later video sample: native timestamp 150/600 s. -/
def vbuf2 : SampleBuffer :=
  { presentationTimeStamp := CMTimeMake 150 600, duration := CMTimeMake 20 600 }

/-- A video sample whose source duration 10/600 s differs from 1/fps at
30 fps. -/
def vbufHalf : SampleBuffer :=
  { presentationTimeStamp := CMTimeMake 140 600, duration := CMTimeMake 10 600 }

/-- A concrete audio sample: native timestamp 100/600 s, duration
1024/48000 s. -/
def abuf : SampleBuffer :=
  { presentationTimeStamp := CMTimeMake 100 600, duration := CMTimeMake 1024 48000 }

/-- A built-in microphone device. -/
def builtinMic : AVCaptureDevice :=
  { uniqueID := "BuiltInMicrophoneDevice"
    localizedName := "MacBook Pro Microphone"
    isBuiltInMicrophone := true }

/-- An external microphone device. -/
def externalMic : AVCaptureDevice :=
  { uniqueID := "ExternalUSB"
    localizedName := "USB Audio"
    isBuiltInMicrophone := false }

/-- An audio environment in which a built-in microphone exists but the OS
default input device is the external one, and all AVFoundation steps
succeed. -/
def c5Env : AudioEnv :=
  { defaultDevice := some externalMic
    devices := [builtinMic, externalMic]
    deviceInputError := false
    canAddInput := true
    canAddOutput := true }

/-- An audio environment with no input device at all. -/
def noMicEnv : AudioEnv :=
  { defaultDevice := none
    devices := []
    deviceInputError := false
    canAddInput := true
    canAddOutput := true }

/-- An `init` environment in which every construction step succeeds. -/
def okInitEnv : InitEnv :=
  { assetWriterError := false
    canAddVideoInput := true
    canAddAudioInput := true
    shareableContentError := false
    hasDisplay := true
    addStreamOutputError := false }

/-- An `init` environment in which creating the asset writer fails. -/
def failInitEnv : InitEnv :=
  { assetWriterError := true
    canAddVideoInput := true
    canAddAudioInput := true
    shareableContentError := false
    hasDisplay := true
    addStreamOutputError := false }

/-- C1 is refuted on the code: the Timestamp Normalizer does not use one
shared origin across tracks.  In a session where an audio sample with
native timestamp 100/600 arrives before the first video sample with
native timestamp 130/600, the code emits the video sample at timestamp 0
(rebased against its own track origin), not at 30/600 = native minus the
shared origin set by the audio sample. -/
theorem C1_counterexample :
    (processTrace recAfterStart
        [CaptureEvent.audio abuf okEnv, CaptureEvent.video vbuf okEnv]).2 =
      [EmittedSample.audio
        { presentationTimeStamp := CMTimeMake 0 600
          decodeTimeStamp := none
          duration := CMTimeMake 1024 48000 },
       EmittedSample.video
        { presentationTimeStamp := CMTimeMake 0 600
          decodeTimeStamp := none
          duration := CMTimeMake 1 30 }] ∧
    CMTimeSubtract vbuf.presentationTimeStamp abuf.presentationTimeStamp =
      CMTimeMake 30 600 ∧
    CMTimeMake 0 600 ≠ CMTimeMake 30 600 := by
  decide

/-- C1 amended: each track rebases against the first sample of that same
track.  While recording, an accepted video sample is emitted at its
native timestamp minus the video-track origin (its own timestamp when it
is the first video sample), leaving the audio-track origin untouched, and
an accepted audio sample is emitted at its native timestamp minus the
audio-track origin (its own timestamp when it is the first audio sample),
leaving the video-track origin untouched. -/
theorem C1_per_track_origin (s : SCRecorderImpl) (vb ab : SampleBuffer)
    (hrec : s.isRecording = true) (haud : s.audioInput = true) :
    (s.streamDidOutputSampleBuffer vb SCStreamOutputType.screen okEnv).2 =
      some
        { presentationTimeStamp :=
            CMTimeSubtract vb.presentationTimeStamp
              (if s.hasFirstFrame then s.firstFrameTime else vb.presentationTimeStamp)
          decodeTimeStamp := none
          duration := CMTimeMake 1 s.fps } ∧
    (s.streamDidOutputSampleBuffer vb SCStreamOutputType.screen okEnv).1.hasFirstAudio =
      s.hasFirstAudio ∧
    (s.streamDidOutputSampleBuffer vb SCStreamOutputType.screen okEnv).1.firstAudioTime =
      s.firstAudioTime ∧
    (s.captureOutput ab okEnv).2 =
      some
        { presentationTimeStamp :=
            CMTimeSubtract ab.presentationTimeStamp
              (if s.hasFirstAudio then s.firstAudioTime else ab.presentationTimeStamp)
          decodeTimeStamp := none
          duration := ab.duration } ∧
    (s.captureOutput ab okEnv).1.hasFirstFrame = s.hasFirstFrame ∧
    (s.captureOutput ab okEnv).1.firstFrameTime = s.firstFrameTime := by
  refine ⟨?_, ?_, ?_, ?_, ?_, ?_⟩ <;>
    by_cases hf : s.hasFirstFrame <;> by_cases ha : s.hasFirstAudio <;>
      simp [SCRecorderImpl.streamDidOutputSampleBuffer, SCRecorderImpl.captureOutput,
        okEnv, hrec, haud, hf, ha]

/-- Witness for the amended C1 at a concrete post-start session state and
concrete samples. -/
theorem C1_per_track_origin_witness :
    (recAfterStart.streamDidOutputSampleBuffer vbuf SCStreamOutputType.screen okEnv).2 =
      some
        { presentationTimeStamp :=
            CMTimeSubtract vbuf.presentationTimeStamp
              (if recAfterStart.hasFirstFrame then recAfterStart.firstFrameTime
               else vbuf.presentationTimeStamp)
          decodeTimeStamp := none
          duration := CMTimeMake 1 recAfterStart.fps } :=
  (C1_per_track_origin recAfterStart vbuf abuf rfl rfl).1

/-- C2 is refuted on the code: in the success path of `start`, the
`isRecording` flag is assigned inside the completion handler of
`stream.start`, after `stream.start` has been invoked, not before; and an
audio sample delivered while `isRecording` is still false is dropped by
the guard of the audio callback. -/
theorem C2_counterexample :
    (recPreStart.start okStartEnv 100).2.2 =
      [StartAction.startWriting, StartAction.startSessionAtSourceTimeZero,
       StartAction.resetFirstSampleFlags, StartAction.invokeStreamStart,
       StartAction.setIsRecordingTrue, StartAction.recordStartTime] ∧
    ¬ (List.indexOf StartAction.setIsRecordingTrue (recPreStart.start okStartEnv 100).2.2 <
        List.indexOf StartAction.invokeStreamStart (recPreStart.start okStartEnv 100).2.2) ∧
    recPreStart.captureOutput abuf okEnv = (recPreStart, none) := by
  decide

/-- C2 amended: in the success path of `start`, `isRecording` is set to
true only inside the completion handler, strictly after `stream.start`
has been invoked, and an audio sample delivered at any point while
`isRecording` is still false is dropped by the guard of the audio
callback without any state change. -/
theorem C2_isRecording_after_stream_start (s : SCRecorderImpl) (env : StartEnv) (now : Int)
    (t : SCRecorderImpl) (ab : SampleBuffer) (aenv : AppendEnv)
    (h1 : s.isRecording = false) (h2 : s.stream = true)
    (h3 : env.startWritingSucceeds = true) (h4 : env.streamStartError = false)
    (h5 : t.isRecording = false) :
    (s.start env now).2.2 =
      [StartAction.startWriting, StartAction.startSessionAtSourceTimeZero,
       StartAction.resetFirstSampleFlags, StartAction.invokeStreamStart,
       StartAction.setIsRecordingTrue, StartAction.recordStartTime] ∧
    (s.start env now).1.isRecording = true ∧
    List.indexOf StartAction.invokeStreamStart (s.start env now).2.2 <
      List.indexOf StartAction.setIsRecordingTrue (s.start env now).2.2 ∧
    t.captureOutput ab aenv = (t, none) := by
  have htrace : (s.start env now).2.2 =
      [StartAction.startWriting, StartAction.startSessionAtSourceTimeZero,
       StartAction.resetFirstSampleFlags, StartAction.invokeStreamStart,
       StartAction.setIsRecordingTrue, StartAction.recordStartTime] := by
    simp [SCRecorderImpl.start, h1, h2, h3, h4]
  refine ⟨htrace, ?_, ?_, ?_⟩
  · simp [SCRecorderImpl.start, h1, h2, h3, h4]
  · rw [htrace]; decide
  · simp [SCRecorderImpl.captureOutput, h5]

/-- Witness for the amended C2 at a concrete pre-start state and a
successful start environment. -/
theorem C2_isRecording_after_stream_start_witness :
    (recPreStart.start okStartEnv 100).1.isRecording = true :=
  (C2_isRecording_after_stream_start recPreStart okStartEnv 100 recPreStart abuf okEnv
    rfl rfl rfl rfl rfl).2.1

/-- C3 is refuted on the code: when the rebased copy of the first video
sample of a session fails, the sample is dropped but the first-frame flag
is not re-armed; `hasFirstFrame` remains true afterwards, not false as the
claim requires. -/
theorem C3_counterexample :
    (recAfterStart.streamDidOutputSampleBuffer vbuf SCStreamOutputType.screen copyFailEnv).2 =
      none ∧
    ¬ ((recAfterStart.streamDidOutputSampleBuffer vbuf SCStreamOutputType.screen
        copyFailEnv).1.hasFirstFrame = false) := by
  decide

/-- C3 amended: if creating the rebased copy of the first video sample
fails, the sample is dropped and the recording continues, but the
first-frame flag stays set: the dropped sample records its native
timestamp as the video-track origin, and the next incoming video sample
is rebased against the dropped sample timestamp rather than against its
own. -/
theorem C3_failed_first_copy_keeps_flag (s : SCRecorderImpl) (vb vb2 : SampleBuffer)
    (hrec : s.isRecording = true) (hff : s.hasFirstFrame = false) :
    s.streamDidOutputSampleBuffer vb SCStreamOutputType.screen copyFailEnv =
      ({ s with hasFirstFrame := true, firstFrameTime := vb.presentationTimeStamp }, none) ∧
    (s.streamDidOutputSampleBuffer vb SCStreamOutputType.screen copyFailEnv).1.isRecording =
      true ∧
    ((s.streamDidOutputSampleBuffer vb SCStreamOutputType.screen
        copyFailEnv).1.streamDidOutputSampleBuffer vb2 SCStreamOutputType.screen okEnv).2 =
      some
        { presentationTimeStamp :=
            CMTimeSubtract vb2.presentationTimeStamp vb.presentationTimeStamp
          decodeTimeStamp := none
          duration := CMTimeMake 1 s.fps } := by
  refine ⟨?_, ?_, ?_⟩ <;>
    simp [SCRecorderImpl.streamDidOutputSampleBuffer, copyFailEnv, okEnv, hrec, hff]

/-- Witness for the amended C3 at a concrete post-start state. -/
theorem C3_failed_first_copy_keeps_flag_witness :
    recAfterStart.streamDidOutputSampleBuffer vbuf SCStreamOutputType.screen copyFailEnv =
      ({ recAfterStart with
          hasFirstFrame := true
          firstFrameTime := vbuf.presentationTimeStamp }, none) :=
  (C3_failed_first_copy_keeps_flag recAfterStart vbuf vbuf2 rfl rfl).1

/-- C4 is refuted on the code for the video track: a video sample whose
source duration is 10/600 s is emitted with duration 1/30 s (one frame at
the configured 30 fps), which is a different rational duration; the
source duration is never read on the video path. -/
theorem C4_counterexample :
    (recAfterStart.streamDidOutputSampleBuffer vbufHalf SCStreamOutputType.screen okEnv).2 =
      some
        { presentationTimeStamp := CMTimeMake 0 600
          decodeTimeStamp := none
          duration := CMTimeMake 1 30 } ∧
    vbufHalf.duration = CMTimeMake 10 600 ∧
    (CMTimeMake 1 30).value * ((CMTimeMake 10 600).timescale : Int) ≠
      (CMTimeMake 10 600).value * ((CMTimeMake 1 30).timescale : Int) := by
  decide

/-- C4 amended: the decode timestamp is left invalid for both tracks, and
the audio track preserves the source sample duration, but every emitted
video sample carries duration `CMTimeMake(1, fps)` regardless of the
source sample duration. -/
theorem C4_duration_and_dts (s : SCRecorderImpl) (vb ab : SampleBuffer)
    (hrec : s.isRecording = true) (haud : s.audioInput = true) :
    ((s.streamDidOutputSampleBuffer vb SCStreamOutputType.screen okEnv).2.map
        CMSampleTimingInfo.duration = some (CMTimeMake 1 s.fps)) ∧
    ((s.streamDidOutputSampleBuffer vb SCStreamOutputType.screen okEnv).2.map
        CMSampleTimingInfo.decodeTimeStamp = some none) ∧
    ((s.captureOutput ab okEnv).2.map CMSampleTimingInfo.duration = some ab.duration) ∧
    ((s.captureOutput ab okEnv).2.map CMSampleTimingInfo.decodeTimeStamp = some none) := by
  refine ⟨?_, ?_, ?_, ?_⟩ <;>
    by_cases hf : s.hasFirstFrame <;> by_cases ha : s.hasFirstAudio <;>
      simp [SCRecorderImpl.streamDidOutputSampleBuffer, SCRecorderImpl.captureOutput,
        okEnv, hrec, haud, hf, ha]

/-- Witness for the amended C4 at a concrete post-start state. -/
theorem C4_duration_and_dts_witness :
    (recAfterStart.streamDidOutputSampleBuffer vbufHalf SCStreamOutputType.screen okEnv).2.map
      CMSampleTimingInfo.duration = some (CMTimeMake 1 recAfterStart.fps) :=
  (C4_duration_and_dts recAfterStart vbufHalf abuf rfl rfl).1

/-- C5: the code contradicts the claimed (and header-documented) device
selection.  With a built-in microphone present, an external device as OS
default, and a caller-supplied identifier naming the built-in device, the
implementation still captures from the OS default device, because
`setupAudioCapture` consults only `defaultDeviceWithMediaType` and the
7-parameter `sc_recorder_create` implementation ignores the
`audio_device_id` parameter its own header declares.  When no input
device exists, the implementation does continue without audio and logs a
warning, and `init` still succeeds. -/
theorem C5_divergence :
    (setupAudioCapture c5Env).1 = some externalMic ∧
    specMicrophoneSelection (some "BuiltInMicrophoneDevice") c5Env = some builtinMic ∧
    specMicrophoneSelection none c5Env = some builtinMic ∧
    some builtinMic ≠ some externalMic ∧
    (setupAudioCapture noMicEnv).1 = none ∧
    (setupAudioCapture noMicEnv).2 = ["No microphone found, continuing without audio"] ∧
    (initWithConfig "/tmp/recording-1.mp4" 1920 1080 30 80 1 true okInitEnv
        noMicEnv).isSome = true := by
  decide

/-- C6: the duration operation returns the wall-clock time elapsed since
the start instant while the session is recording, returns zero whenever
the session is not recording, and in particular returns zero after `stop`
has run; the C wrapper forwards to the method on a non-null handle. -/
theorem C6_duration_semantics (s : SCRecorderImpl) (now after : Int)
    (env : SCRecorderImpl.StopEnv) (hrec : s.isRecording = true) :
    s.duration now = now - s.startTime ∧
    (∀ t : SCRecorderImpl, t.isRecording = false → t.duration now = 0) ∧
    (s.stop env).1.duration after = 0 ∧
    (∀ r : RecorderInit, sc_recorder_duration (some r) now = r.impl.duration now) := by
  refine ⟨?_, ?_, ?_, fun r => rfl⟩
  · simp [SCRecorderImpl.duration, hrec]
  · intro t ht
    simp [SCRecorderImpl.duration, ht]
  · simp [SCRecorderImpl.stop, SCRecorderImpl.duration, hrec]

/-- Witness for C6 at a concrete recording state. -/
theorem C6_duration_semantics_witness :
    recAfterStart.duration 103 = 103 - recAfterStart.startTime :=
  (C6_duration_semantics recAfterStart 103 200
    { stopCaptureError := false, writerFailed := false } rfl).1

/-- C7 is refuted on the code at large configurations: the bitrate is
computed in `uint32_t` arithmetic, so at 7680 x 4320 at 60 fps the
product wraps modulo `2 ^ 32` and the configured average bitrate is
419250176, not the exact value 1492992000 the claim requires. -/
theorem C7_counterexample :
    (videoSettings 7680 4320 60).compression.averageBitRate = 419250176 ∧
    7680 * 4320 * 3 * 60 / 4 = 1492992000 ∧
    (419250176 : Nat) ≠ 1492992000 := by
  decide

/-- C7 amended: the video track is configured with H.264 High profile at
auto level, average bitrate `(w * h * 3 * f mod 2 ^ 32) / 4` bits per
second — equal to `w * h * 3 * f / 4` whenever the product stays below
`2 ^ 32` — and maximum keyframe interval `f * 2 mod 2 ^ 32` frames —
equal to `2 * f` whenever that product stays below `2 ^ 32`; when
microphone capture is enabled the audio track is AAC at 48000 Hz, 1
channel, 128000 bits per second. -/
theorem C7_encoder_settings (w h f : Nat) (path : String) (q displayID : Nat)
    (env : InitEnv) (aenv : AudioEnv) :
    (videoSettings w h f).compression.averageBitRate = w * h * 3 * f % UINT32_MOD / 4 ∧
    (w * h * 3 * f < UINT32_MOD →
      (videoSettings w h f).compression.averageBitRate = w * h * 3 * f / 4) ∧
    (videoSettings w h f).compression.maxKeyFrameInterval = f * 2 % UINT32_MOD ∧
    (f * 2 < UINT32_MOD →
      (videoSettings w h f).compression.maxKeyFrameInterval = 2 * f) ∧
    (videoSettings w h f).compression.profileLevel =
      "AVVideoProfileLevelH264HighAutoLevel" ∧
    (videoSettings w h f).codec = "AVVideoCodecTypeH264" ∧
    audioOutputSettings.formatID = "kAudioFormatMPEG4AAC" ∧
    audioOutputSettings.sampleRate = 48000 ∧
    audioOutputSettings.numberOfChannels = 1 ∧
    audioOutputSettings.encoderBitRate = 128000 ∧
    (∀ r : RecorderInit, initWithConfig path w h f q displayID true env aenv = some r →
      r.video = videoSettings w h f ∧ r.audio = some audioOutputSettings) := by
  have hmod : w * h % UINT32_MOD * 3 % UINT32_MOD * f % UINT32_MOD =
      w * h * 3 * f % UINT32_MOD := by
    simp only [Nat.mod_mul_mod]
  refine ⟨?_, ?_, rfl, ?_, rfl, rfl, rfl, rfl, rfl, rfl, ?_⟩
  · simp only [videoSettings, hmod]
  · intro hlt
    simp only [videoSettings, hmod, Nat.mod_eq_of_lt hlt]
  · intro hlt
    simp only [videoSettings, Nat.mod_eq_of_lt hlt, Nat.mul_comm]
  · intro r hr
    unfold initWithConfig at hr
    repeat' split at hr
    all_goals simp_all
    subst hr
    exact ⟨rfl, rfl⟩

/-- Witness for the amended C7 at the default 1920 x 1080 at 30 fps
configuration, whose bitrate product stays below `2 ^ 32`. -/
theorem C7_encoder_settings_witness :
    (videoSettings 1920 1080 30).compression.averageBitRate = 1920 * 1080 * 3 * 30 / 4 :=
  (C7_encoder_settings 1920 1080 30 "/tmp/recording-1.mp4" 80 1 okInitEnv
    c5Env).2.1 (by decide)

/-- Helper: `redo` is a no-op on a history whose future stack is empty. -/
theorem UndoRedo.redo_of_future_eq_nil {T : Type} (s : UndoRedo.HistoryState T)
    (hf : s.future = []) : UndoRedo.redo s = s := by
  rcases s with ⟨past, present, future⟩
  simp only at hf
  subst hf
  rfl

/-- Helper: on a history whose future stack is empty, `redo` after `undo`
restores the history exactly. -/
theorem UndoRedo.redo_undo_of_future_eq_nil {T : Type} (s : UndoRedo.HistoryState T)
    (hf : s.future = []) : UndoRedo.redo (UndoRedo.undo s) = s := by
  rcases s with ⟨past, present, future⟩
  simp only at hf
  subst hf
  rcases List.eq_nil_or_concat past with hp | ⟨L, b, hp⟩ <;> subst hp
  · rfl
  · simp [UndoRedo.undo, UndoRedo.redo, List.concat_eq_append, List.getLast?_concat,
      List.dropLast_concat]

/-- C8 is refuted on the code in one direction: for the history state s
obtained by applying a single user mutation (setState with value 2 over
present value 1), redo is a no-op because the mutation cleared the future
stack, so Undo(Redo(s)) = Undo(s), which differs from s. -/
theorem C8_counterexample :
    UndoRedo.undo (UndoRedo.redo (UndoRedo.setState 50 true 2
        { past := [], present := (1 : Nat), future := [] })) =
      { past := [], present := 1, future := [2] } ∧
    UndoRedo.setState 50 true 2
        { past := [], present := (1 : Nat), future := [] } =
      { past := [1], present := 2, future := [] } ∧
    ({ past := [], present := 1, future := [2] } : UndoRedo.HistoryState Nat) ≠
      { past := [1], present := 2, future := [] } := by
  decide

/-- C8 amended: for any timeline state and any single user mutation,
Redo(Undo(s)) = s where s is the post-mutation history; the other
composition collapses, since the mutation clears the future stack and
redo is therefore a no-op on s, making Undo(Redo(s)) = Undo(s), which
differs from s whenever undo is non-trivial. -/
theorem C8_redo_undo_roundtrip {T : Type} (maxHistorySize : Nat) (b : T)
    (h : UndoRedo.HistoryState T) :
    UndoRedo.redo (UndoRedo.undo (UndoRedo.setState maxHistorySize true b h)) =
      UndoRedo.setState maxHistorySize true b h ∧
    UndoRedo.redo (UndoRedo.setState maxHistorySize true b h) =
      UndoRedo.setState maxHistorySize true b h := by
  have hf : (UndoRedo.setState maxHistorySize true b h).future = [] := by
    simp [UndoRedo.setState]
  exact ⟨UndoRedo.redo_undo_of_future_eq_nil _ hf, UndoRedo.redo_of_future_eq_nil _ hf⟩

/-- C9: the clip-saved listener updates only the current clip path and
never the status field, so a ClipSaved arriving after a subsequent
Recording status for the next clip leaves that status in place. -/
theorem C9_clipSaved_is_not_a_status_transition (p : UseRecording.ClipSavedEvent)
    (s : UseRecording.RecordingState) :
    UseRecording.onClipSaved p s = { s with currentClipPath := some p.path } ∧
    (UseRecording.onClipSaved p s).status = s.status ∧
    (UseRecording.onClipSaved p (UseRecording.onRecordingStatus "recording" s)).status =
      "recording" :=
  ⟨rfl, rfl, rfl⟩

/-- C10: every C API operation is total on a NULL handle with the
documented results, and create returns NULL whenever the internal
`initWithConfig` fails. -/
theorem C10_null_handle_total (env : StartEnv) (senv : SCRecorderImpl.StopEnv) (now : Int)
    (path : String) (w h f q displayID : Nat) (captureAudio : Bool)
    (ienv : InitEnv) (aenv : AudioEnv) :
    sc_recorder_start none env now = (-1, none) ∧
    sc_recorder_stop none senv = (-1, none) ∧
    sc_recorder_duration none now = 0 ∧
    sc_recorder_last_error none = none ∧
    sc_recorder_free none = none ∧
    (initWithConfig path w h f q displayID captureAudio ienv aenv = none →
      sc_recorder_create path w h f q displayID captureAudio ienv aenv = none) :=
  ⟨rfl, rfl, rfl, rfl, rfl, fun hh => hh⟩

/-- Witness for C10: with a failing asset writer, `sc_recorder_create`
returns NULL rather than a partially built recorder. -/
theorem C10_null_handle_total_witness :
    sc_recorder_create "/tmp/recording-1.mp4" 1920 1080 30 80 1 true failInitEnv c5Env =
      none :=
  (C10_null_handle_total okStartEnv { stopCaptureError := false, writerFailed := false } 0
    "/tmp/recording-1.mp4" 1920 1080 30 80 1 true failInitEnv c5Env).2.2.2.2.2
    (by decide)
